import Mathlib

/-
Verification of the OD System Analyser scoring pipeline.

The pipeline (src/ and credit_intelligence_dashboard/src/) turns raw
per-business financial records into a probability of default (PD), a
cluster segment, an OD suitability score and an interest-rate-reduction
eligibility flag.  All numeric fields are embedded as exact rationals
(`ℚ`); lists stand for numpy arrays / pandas columns, and association
lists `List (String × ℚ)` stand for pandas rows and the simulator's
parameter dict.  The fitted sklearn artifacts (StandardScaler, PCA,
KMeans, MLPClassifier) are embedded by their apply-time mathematics; the
trained classifier itself is opaque at apply time and is carried as an
abstract function `List ℚ → ℚ` inside the artifact set.
-/

namespace ODSys

/-! ## Numeric helpers -/

/-- Floor of a rational, computed from numerator and denominator
(`Int.fdiv` rounds toward negative infinity and `q.den > 0`). -/
def ratFloor (q : ℚ) : ℤ := Int.fdiv q.num q.den

/-- Round to the nearest integer, ties to the even integer: the rounding
Python's built-in `round` uses. -/
def roundHalfEven (q : ℚ) : ℤ :=
  if q - (ratFloor q : ℚ) < 1/2 then ratFloor q
  else if 1/2 < q - (ratFloor q : ℚ) then ratFloor q + 1
  else if 2 ∣ ratFloor q then ratFloor q else ratFloor q + 1

/-- Python's `round(x, n)` (round to `n` decimal places, half to even),
modelled on exact rationals. -/
def pyRound (q : ℚ) (n : ℕ) : ℚ := (roundHalfEven (q * 10 ^ n) : ℚ) / 10 ^ n

/-- Dot product of two rational vectors. -/
def dotQ (a b : List ℚ) : ℚ := (List.zipWith (· * ·) a b).sum

/-- Squared Euclidean distance between two vectors. -/
def sqDist (a b : List ℚ) : ℚ := (List.zipWith (fun x y => (x - y) ^ 2) a b).sum

/-- Arithmetic mean of a list (pandas `mean`); `0` on the empty list. -/
def meanQ (l : List ℚ) : ℚ := l.sum / l.length

/-! ## Configuration (config/config.py) -/

/-- `PD_THRESHOLD = 0.15` from config.py. -/
def PD_THRESHOLD : ℚ := 15/100

/-- `OD_UTIL_THRESHOLD = 0.70` from config.py. -/
def OD_UTIL_THRESHOLD : ℚ := 7/10

/-- `NUMERIC_FEATURES` from config.py: the 15 raw feature columns. -/
def NUMERIC_FEATURES : List String :=
  ["Revenue_per_Day", "Expense_per_Day", "Monthly_Revenue", "Monthly_Expense",
   "Cash_Inflow_Adjusted", "Cash_Outflow_Adjusted", "OD_Required", "OD_Utilization",
   "Inventory_Days", "Receivable_Days", "Payable_Days", "Cash_Conversion_Cycle",
   "Credit_Score", "Debt_to_Revenue_Ratio", "EMI_Obligation"]

/-- `ENGINEERED_FEATURES` from config.py. -/
def ENGINEERED_FEATURES : List String := ["Profit", "ProfitMargin", "CashRatio"]

/-- The feature order used by both consumers
(`NUMERIC_FEATURES + ENGINEERED_FEATURES`, 18 names). -/
def featureCols : List String := NUMERIC_FEATURES ++ ENGINEERED_FEATURES

/-- `CLUSTER_LABELS` dict from config.py; `none` models a missing key. -/
def CLUSTER_LABELS (c : ℕ) : Option String :=
  match c with
  | 0 => some "Stable"
  | 1 => some "Growing"
  | 2 => some "Liquidity Stressed"
  | 3 => some "High Risk"
  | _ => none

/-! ## Fitted artifacts (apply-time mathematics of the sklearn objects) -/

/-- A fitted `StandardScaler`: per-feature mean and scale. -/
structure Scaler where
  mean : List ℚ
  scale : List ℚ

/-- `StandardScaler.transform`: elementwise `(x - mean) / scale`
(scaling.py standardizes as `X_scaled = (X - mean) / std`). -/
def scalerTransform (s : Scaler) (x : List ℚ) : List ℚ :=
  List.zipWith (fun xi ms => (xi - ms.1) / ms.2) x (s.mean.zip s.scale)

/-- `StandardScaler.transform` with numpy's only failure mode made
explicit: a shape mismatch between the input and the fitted params
raises (modelled as `none`).  No feature-name validation happens on a
bare array: any vector of the fitted length is standardized silently. -/
def scalerTransformChecked (s : Scaler) (x : List ℚ) : Option (List ℚ) :=
  if x.length = s.mean.length ∧ s.mean.length = s.scale.length then
    some (scalerTransform s x)
  else none

/-- A fitted PCA: the centering mean and the retained components. -/
structure PCAModel where
  mean : List ℚ
  components : List (List ℚ)

/-- `PCA.transform`: project the centered vector on each component. -/
def pcaTransform (p : PCAModel) (x : List ℚ) : List ℚ :=
  p.components.map (fun c => dotQ (List.zipWith (· - ·) x p.mean) c)

/-- `KMeans.predict` on one vector: index of the nearest centroid,
ties broken by the lowest index (`np.argmin`). -/
def argminAux (x : List ℚ) : List (List ℚ) → ℕ → ℕ → ℚ → ℕ
  | [], _, best, _ => best
  | c :: rest, i, best, bestVal =>
    let d := sqDist x c
    if d < bestVal then argminAux x rest (i + 1) i d
    else argminAux x rest (i + 1) best bestVal

/-- Nearest-centroid assignment (`kmeans.predict` for a single vector). -/
def kmeansPredict (cents : List (List ℚ)) (x : List ℚ) : ℕ :=
  match cents with
  | [] => 0
  | c :: rest => argminAux x rest 1 0 (sqDist x c)

/-- The loaded artifact set (`models` dict of model_loader.py).  The
trained MLPClassifier is opaque at apply time: `ann` is its
`predict_proba(·)[, 1]` column as a function of the input vector. -/
structure Models where
  scaler : Scaler
  pca : PCAModel
  kmeans : List (List ℚ)
  ann : List ℚ → ℚ

/-! ## Rows and the simulator / batch scoring paths -/

/-- A pandas row or the simulator's parameter dict: column name ↦ value. -/
def Row : Type := List (String × ℚ)

/-- `params.get(k, d)` (dict lookup with default). -/
def rowGetD (r : Row) (k : String) (d : ℚ) : ℚ := ((List.lookup k r).getD d)

/-- The feature vector built by simulation.py line 26:
`[params.get(f, 0.0) for f in feature_cols]`. -/
def simX (params : Row) (cols : List String) : List ℚ :=
  cols.map (fun f => rowGetD params f 0)

/-- The dict returned by `simulate_business`. -/
structure SimResult where
  PD : ℚ
  Cluster : ℕ
  Cluster_Name : String
  ODScore : ℚ
  Interest_Eligible : Bool
  Risk_Level : String
deriving DecidableEq, Repr

/-- `simulate_business` (credit_intelligence_dashboard/src/simulation.py):
scale → PCA → cluster → ANN PD → OD score and eligibility, for one
parameter dict.  `PD` is rounded to 6 decimal places and `ODScore` to 4,
as in the source (`round(pd_score, 6)`, `round(od_score, 4)`). -/
def simulate_business (params : Row) (models : Models) (feature_cols : List String) :
    SimResult :=
  let X := simX params feature_cols
  let X_scaled := scalerTransform models.scaler X
  let X_pca := pcaTransform models.pca X_scaled
  let cluster := kmeansPredict models.kmeans X_pca
  let cluster_name := (CLUSTER_LABELS cluster).getD ("Cluster " ++ toString cluster)
  let pd_score := models.ann (X_pca ++ [(cluster : ℚ)])
  let cash_ratio := rowGetD params "CashRatio" 1
  let od_score := (1 - pd_score) * cash_ratio
  let od_util := rowGetD params "OD_Utilization" 0
  { PD := pyRound pd_score 6
    Cluster := cluster
    Cluster_Name := cluster_name
    ODScore := pyRound od_score 4
    Interest_Eligible :=
      decide (pd_score < PD_THRESHOLD) && decide (od_util > OD_UTIL_THRESHOLD)
    Risk_Level :=
      if pd_score < 1/10 then "Low" else if pd_score < 3/10 then "Medium" else "High" }

/-- One output row of `compute_risk_scores`: the input row plus the
added `Cluster`, `Cluster_Name`, `PD` and `ODScore` columns.
`Cluster_Name` comes from `df["Cluster"].map(CLUSTER_LABELS)`, which
leaves a missing key as NaN (`none`). -/
structure ScoredRow where
  base : Row
  Cluster : ℕ
  Cluster_Name : Option String
  PD : ℚ
  ODScore : ℚ

/-- The per-row mathematics of `compute_risk_scores`
(credit_intelligence_dashboard/src/scoring.py): scale → PCA → cluster →
ANN PD → `ODScore = (1 - PD) * CashRatio`, with no rounding. -/
def scoreRow (models : Models) (cols : List String) (r : Row) : ScoredRow :=
  let x := simX r cols
  let xs := scalerTransform models.scaler x
  let xp := pcaTransform models.pca xs
  let c := kmeansPredict models.kmeans xp
  let p := models.ann (xp ++ [(c : ℚ)])
  { base := r
    Cluster := c
    Cluster_Name := CLUSTER_LABELS c
    PD := p
    ODScore := (1 - p) * rowGetD r "CashRatio" 0 }

/-- Pandas raises `KeyError` when a selected column is absent from the
frame: a row scores only when every feature column and the `CashRatio`
column used by the ODScore line are present. -/
def rowOk (cols : List String) (r : Row) : Bool :=
  cols.all (fun f => (List.lookup f r).isSome) && (List.lookup "CashRatio" r).isSome

/-- `compute_risk_scores` on a frame of rows: `none` models the
`KeyError` on a missing column, otherwise every row is scored. -/
def compute_risk_scores (df : List Row) (models : Models) (cols : List String) :
    Option (List ScoredRow) :=
  if df.all (rowOk cols) then some (df.map (scoreRow models cols)) else none

/-- The caller-visible state around a scoring call: the caller's frame
and the shared loaded artifacts. -/
structure SysState where
  df : List Row
  models : Models

/-- `compute_risk_scores` as a state transformer: the source copies the
frame before adding columns (`df = df.copy()`, scoring.py line 36) and
only calls `transform` / `predict` / `predict_proba` on the artifacts,
so the caller's frame and the artifact set pass through unchanged. -/
def compute_risk_scores_run (st : SysState) (cols : List String) :
    Option (List ScoredRow × SysState) :=
  (compute_risk_scores st.df st.models cols).map (fun out => (out, st))

/-- Two successive scoring calls against the same loaded artifact set,
threading the artifact state through explicitly. -/
def run_score (m : Models) (p : Row) (cols : List String) : SimResult × Models :=
  (simulate_business p m cols, m)

/-! ## Batch pipeline leaves (src/src) -/

/-- `create_risk_label` (src/src/ann_risk_model.py) for one record:
count the conditions `OD_Utilization > 0.7`, `Debt_to_Revenue_Ratio >
0.15`, `Credit_Score < 600`; label 1 when at least two hold. -/
def create_risk_label (u d c : ℚ) : ℕ :=
  if 2 ≤ ((if u > 7/10 then 1 else 0) + (if d > 3/20 then 1 else 0)
      + (if c < 600 then 1 else 0) : ℕ) then 1 else 0

/-- The `Interest_Reduction` column of `apply_interest_strategy`
(src/src/interest_strategy.py) for one record. -/
def interest_reduction (p u : ℚ) : Bool :=
  decide (p < PD_THRESHOLD) && decide (u > OD_UTIL_THRESHOLD)

/-- `apply_interest_strategy` over the PD and OD_Utilization columns. -/
def apply_interest_strategy (pds us : List ℚ) : List Bool :=
  List.zipWith interest_reduction pds us

/-- `compute_od_score` (src/src/od_scoring.py) over the `CashRatio`
column and the PD predictions: `ODScore = (1 - PD) * CashRatio`. -/
def compute_od_score (cashRatios pds : List ℚ) : List ℚ :=
  List.zipWith (fun c p => (1 - p) * c) cashRatios pds

/-- The raw columns `engineer_features` reads. -/
structure RawRecord where
  Monthly_Revenue : ℚ
  Monthly_Expense : ℚ
  Cash_Inflow_Adjusted : ℚ
  OD_Required : ℚ
  Inventory_Days : ℚ
  Receivable_Days : ℚ
  Payable_Days : ℚ

/-- The columns `engineer_features` adds. -/
structure EngineeredRecord extends RawRecord where
  Profit : ℚ
  ProfitMargin : ℚ
  CashRatio : ℚ
  CCC_Calculated : ℚ

/-- `engineer_features` (src/src/feature_engineering.py): `Profit`;
`ProfitMargin` guarded by `np.where(rev != 0, profit/rev, 0)`;
`CashRatio` guarded by `np.where(od > 0, inflow/od, 10.0)`;
`CCC_Calculated`. -/
def engineer_features (r : RawRecord) : EngineeredRecord :=
  let profit := r.Monthly_Revenue - r.Monthly_Expense
  { toRawRecord := r
    Profit := profit
    ProfitMargin :=
      if r.Monthly_Revenue ≠ 0 then profit / r.Monthly_Revenue else 0
    CashRatio :=
      if r.OD_Required > 0 then r.Cash_Inflow_Adjusted / r.OD_Required else 10
    CCC_Calculated := r.Inventory_Days + r.Receivable_Days - r.Payable_Days }

/-! ## Sector report (src/src/sector_analysis.py) -/

/-- The category keys of a frame, as pandas `groupby` orders them
(sorted; duplicates collapsed). -/
def sectorKeys (df : List (String × ℚ)) : List String :=
  List.insertionSort (fun a b => a ≤ b) (df.map Prod.fst).dedup

/-- The PD values of one category. -/
def sectorPDs (df : List (String × ℚ)) (k : String) : List ℚ :=
  (df.filter (fun r => r.1 = k)).map Prod.snd

/-- `groupby("Business_Type").agg(Avg_PD=("PD", "mean"))`. -/
def sectorAgg (df : List (String × ℚ)) : List (String × ℚ) :=
  (sectorKeys df).map (fun k => (k, meanQ (sectorPDs df k)))

/-- `sort_values("Avg_PD", ascending=True)`. -/
def sortByAvgPD (l : List (String × ℚ)) : List (String × ℚ) :=
  List.insertionSort (fun a b => a.2 ≤ b.2) l

/-- `Risk_Rank = range(1, len + 1)` attached positionally. -/
def addRanks : List (String × ℚ) → ℕ → List (String × ℚ × ℕ)
  | [], _ => []
  | e :: t, n => (e.1, e.2, n) :: addRanks t (n + 1)

/-- The ranking core of `analyze_sectors`: mean PD per category, sorted
ascending, ranks 1.. attached.  Each entry is
(category, mean PD, Risk_Rank). -/
def analyze_sectors (df : List (String × ℚ)) : List (String × ℚ × ℕ) :=
  addRanks (sortByAvgPD (sectorAgg df)) 1

/-! ## Concrete witness data -/

/-- Concrete loaded artifacts for witnesses: identity scaler over the 18
features, one PCA component picking the first coordinate, one centroid,
and a classifier that returns probability 1/3 on every input. -/
def M0 : Models :=
  { scaler := { mean := List.replicate 18 0, scale := List.replicate 18 1 }
    pca := { mean := List.replicate 18 0, components := [(1 : ℚ) :: List.replicate 17 0] }
    kmeans := [[0]]
    ann := fun _ => 1/3 }

/-- A concrete complete record: every one of the 18 feature columns is
present; `CashRatio = 1`, `OD_Utilization = 3/4`, the rest 0. -/
def r0 : Row :=
  [("Revenue_per_Day", 0), ("Expense_per_Day", 0), ("Monthly_Revenue", 0),
   ("Monthly_Expense", 0), ("Cash_Inflow_Adjusted", 0), ("Cash_Outflow_Adjusted", 0),
   ("OD_Required", 0), ("OD_Utilization", 3/4), ("Inventory_Days", 0),
   ("Receivable_Days", 0), ("Payable_Days", 0), ("Cash_Conversion_Cycle", 0),
   ("Credit_Score", 0), ("Debt_to_Revenue_Ratio", 0), ("EMI_Obligation", 0),
   ("Profit", 0), ("ProfitMargin", 0), ("CashRatio", 1)]

/-! ## Shared helper lemmas -/

theorem zipWith_eq_zip_map {α β γ : Type} (f : α → β → γ) :
    ∀ (as : List α) (bs : List β),
      List.zipWith f as bs = (as.zip bs).map (fun ab => f ab.1 ab.2)
  | [], _ => by simp
  | _ :: _, [] => by simp
  | a :: as, b :: bs => by
    simp [List.zip_cons_cons, zipWith_eq_zip_map f as bs]

theorem ratFloor_eq_floor (q : ℚ) : ratFloor q = ⌊q⌋ := by
  rw [ratFloor, Int.fdiv_eq_ediv _ (by exact_mod_cast Nat.zero_le q.den)]
  exact Rat.floor_def.symm

theorem roundHalfEven_of_lt (q : ℚ) (z : ℤ)
    (h1 : (z : ℚ) ≤ q) (h2 : q - (z : ℚ) < 1/2) : roundHalfEven q = z := by
  have hz : ratFloor q = z := by
    rw [ratFloor_eq_floor]
    exact Int.floor_eq_iff.mpr ⟨h1, by linarith⟩
  rw [roundHalfEven, hz, if_pos h2]

theorem roundHalfEven_of_gt (q : ℚ) (z : ℤ)
    (h1 : (z : ℚ) ≤ q) (h1b : q < (z : ℚ) + 1) (h2 : 1/2 < q - (z : ℚ)) :
    roundHalfEven q = z + 1 := by
  have hz : ratFloor q = z := by
    rw [ratFloor_eq_floor]
    exact Int.floor_eq_iff.mpr ⟨h1, h1b⟩
  rw [roundHalfEven, hz, if_neg (by linarith), if_pos h2]

theorem pyRound_of_lt (q : ℚ) (n : ℕ) (z : ℤ)
    (h1 : (z : ℚ) ≤ q * 10 ^ n) (h2 : q * 10 ^ n - (z : ℚ) < 1/2) :
    pyRound q n = (z : ℚ) / 10 ^ n := by
  rw [pyRound, roundHalfEven_of_lt _ z h1 h2]

theorem pyRound_of_gt (q : ℚ) (n : ℕ) (z : ℤ)
    (h1 : (z : ℚ) ≤ q * 10 ^ n) (h1b : q * 10 ^ n < (z : ℚ) + 1)
    (h2 : 1/2 < q * 10 ^ n - (z : ℚ)) :
    pyRound q n = ((z : ℚ) + 1) / 10 ^ n := by
  rw [pyRound, roundHalfEven_of_gt _ z h1 h1b h2]
  push_cast
  ring

theorem pyRound_third_6 : pyRound (1/3) 6 = 333333/1000000 := by
  rw [pyRound_of_lt (1/3) 6 333333 (by norm_num) (by norm_num)]
  norm_num

theorem pyRound_two_thirds_4 : pyRound (2/3) 4 = 6667/10000 := by
  rw [pyRound_of_gt (2/3) 4 6666 (by norm_num) (by norm_num) (by norm_num)]
  norm_num

theorem M0_ann_const : ∀ v, M0.ann v = 1/3 := fun _ => rfl

theorem simX_r0 :
    simX r0 featureCols
      = [0, 0, 0, 0, 0, 0, 0, 3/4, 0, 0, 0, 0, 0, 0, 0, 0, 0, 1] := rfl

theorem scaled_M0_r0 :
    scalerTransform M0.scaler [0, 0, 0, 0, 0, 0, 0, 3/4, 0, 0, 0, 0, 0, 0, 0, 0, 0, 1]
      = [0, 0, 0, 0, 0, 0, 0, 3/4, 0, 0, 0, 0, 0, 0, 0, 0, 0, 1] := by
  norm_num [scalerTransform, M0, List.replicate]

theorem pca_M0_r0 :
    pcaTransform M0.pca [0, 0, 0, 0, 0, 0, 0, 3/4, 0, 0, 0, 0, 0, 0, 0, 0, 0, 1]
      = [0] := by
  norm_num [pcaTransform, M0, dotQ, List.replicate]

theorem scaled_M0_zero :
    scalerTransform M0.scaler (List.replicate 18 0) = List.replicate 18 0 := by
  norm_num [scalerTransform, M0, List.replicate]

theorem pca_M0_zero : pcaTransform M0.pca (List.replicate 18 0) = [0] := by
  norm_num [pcaTransform, M0, dotQ, List.replicate]

theorem kmeans_M0 : kmeansPredict M0.kmeans [0] = 0 := rfl

theorem simX_nil (cols : List String) :
    simX ([] : Row) cols = List.replicate cols.length 0 := by
  induction cols with
  | nil => rfl
  | cons a t ih =>
    rw [List.length_cons, List.replicate_succ,
      show simX ([] : Row) (a :: t) = 0 :: simX ([] : Row) t from rfl, ih]

/-! ## C2: ODScore formula -/

/-- C2: for every batch, the scorer computes `ODScore = (1 - PD) *
CashRatio` for each record, and PD = 0.20 with CashRatio = 2.0 gives
exactly 1.60. -/
theorem od_score_formula_C2 :
    (∀ cs ps : List ℚ,
        compute_od_score cs ps = (cs.zip ps).map (fun cp => (1 - cp.2) * cp.1)) ∧
    compute_od_score [2] [20/100] = [160/100] := by
  constructor
  · intro cs ps
    exact zipWith_eq_zip_map _ cs ps
  · norm_num [compute_od_score]

/-! ## C3: proxy risk label -/

/-- C3: the training proxy label is 1 iff at least two of
`OD_Utilization > 0.70`, `Debt_to_Revenue_Ratio > 0.15`,
`Credit_Score < 600` hold, else 0; checked on the two concrete spec
examples. -/
theorem risk_label_C3 :
    (∀ u d c : ℚ, create_risk_label u d c = 1 ↔
        ((u > 7/10 ∧ d > 3/20) ∨ (u > 7/10 ∧ c < 600) ∨ (d > 3/20 ∧ c < 600))) ∧
    (∀ u d c : ℚ, create_risk_label u d c = 0 ∨ create_risk_label u d c = 1) ∧
    create_risk_label (8/10) (2/10) 700 = 1 ∧
    create_risk_label (8/10) (5/100) 700 = 0 := by
  refine ⟨?_, ?_, by norm_num [create_risk_label], by norm_num [create_risk_label]⟩
  · intro u d c
    by_cases h1 : u > 7/10 <;> by_cases h2 : d > 3/20 <;> by_cases h3 : c < 600 <;>
      simp [create_risk_label, h1, h2, h3]
  · intro u d c
    by_cases h : 2 ≤ ((if u > 7/10 then 1 else 0) + (if d > 3/20 then 1 else 0)
        + (if c < 600 then 1 else 0) : ℕ)
    · right
      unfold create_risk_label
      exact if_pos h
    · left
      unfold create_risk_label
      exact if_neg h

/-! ## C4: interest-reduction eligibility -/

/-- C4: the eligibility flag is true iff `PD < 0.15` and
`OD_Utilization > 0.70`; PD = 0.10 with utilization 0.75 is eligible and
with utilization 0.50 is not. -/
theorem interest_eligibility_C4 :
    (∀ p u : ℚ, interest_reduction p u = true ↔
        (p < PD_THRESHOLD ∧ u > OD_UTIL_THRESHOLD)) ∧
    (∀ ps us : List ℚ, apply_interest_strategy ps us
        = (ps.zip us).map (fun pu => interest_reduction pu.1 pu.2)) ∧
    interest_reduction (10/100) (75/100) = true ∧
    interest_reduction (10/100) (50/100) = false ∧
    PD_THRESHOLD = 15/100 ∧ OD_UTIL_THRESHOLD = 7/10 := by
  refine ⟨?_, ?_, by norm_num [interest_reduction, PD_THRESHOLD, OD_UTIL_THRESHOLD],
    by norm_num [interest_reduction, PD_THRESHOLD, OD_UTIL_THRESHOLD], rfl, rfl⟩
  · intro p u
    simp [interest_reduction]
  · intro ps us
    exact zipWith_eq_zip_map _ ps us

/-! ## C5: feature engineering -/

/-- C5: `engineer_features` computes Profit, ProfitMargin (0 when
revenue is 0), CashRatio (sentinel 10 when OD_Required is 0) and the
cash-conversion cycle; under the non-negative Record invariant the
CashRatio is ≥ 0 (and, being a rational, finite by construction). -/
theorem feature_engineering_C5 (r : RawRecord)
    (hin : 0 ≤ r.Cash_Inflow_Adjusted) (hod : 0 ≤ r.OD_Required) :
    (engineer_features r).Profit = r.Monthly_Revenue - r.Monthly_Expense ∧
    (engineer_features r).ProfitMargin =
      (if r.Monthly_Revenue = 0 then 0
       else (r.Monthly_Revenue - r.Monthly_Expense) / r.Monthly_Revenue) ∧
    (engineer_features r).CashRatio =
      (if r.OD_Required = 0 then 10
       else r.Cash_Inflow_Adjusted / r.OD_Required) ∧
    (engineer_features r).CCC_Calculated =
      r.Inventory_Days + r.Receivable_Days - r.Payable_Days ∧
    0 ≤ (engineer_features r).CashRatio := by
  have hiff : r.OD_Required > 0 ↔ ¬ r.OD_Required = 0 := by
    constructor
    · intro h he
      rw [he] at h
      exact lt_irrefl 0 h
    · intro h
      exact lt_of_le_of_ne hod (fun he => h he.symm)
  refine ⟨rfl, ?_, ?_, rfl, ?_⟩
  · by_cases h : r.Monthly_Revenue = 0 <;> simp [engineer_features, h]
  · by_cases h : r.OD_Required = 0 <;>
      simp [engineer_features, h, hiff.mpr, hiff]
  · unfold engineer_features
    by_cases h : r.OD_Required > 0
    · simpa [h] using div_nonneg hin (le_of_lt h)
    · simp [h]

/-- Witness for C5 at a concrete record. -/
theorem feature_engineering_C5_witness :
    (engineer_features
        { Monthly_Revenue := 100, Monthly_Expense := 40,
          Cash_Inflow_Adjusted := 50, OD_Required := 0,
          Inventory_Days := 30, Receivable_Days := 20, Payable_Days := 10 }).Profit
      = 60 ∧
    (engineer_features
        { Monthly_Revenue := 100, Monthly_Expense := 40,
          Cash_Inflow_Adjusted := 50, OD_Required := 0,
          Inventory_Days := 30, Receivable_Days := 20, Payable_Days := 10 }).CashRatio
      = (if (0 : ℚ) = 0 then 10
         else (50 : ℚ) / 0) := by
  have h := feature_engineering_C5
    { Monthly_Revenue := 100, Monthly_Expense := 40,
      Cash_Inflow_Adjusted := 50, OD_Required := 0,
      Inventory_Days := 30, Receivable_Days := 20, Payable_Days := 10 }
    (by norm_num) (by norm_num)
  exact ⟨by rw [h.1]; norm_num, h.2.2.1⟩

/-! ## C1: batch path vs single-record simulator path -/

/-- C1 counterexample: with the same loaded artifacts `M0` and the same
complete record `r0` (raw and engineered fields identical in both
paths), the batch scorer returns `ODScore = 2/3` while the simulator
returns `round(2/3, 4) = 0.6667`: the two paths do NOT produce an
identical ODScore (the eligibility flags do agree). -/
theorem batch_sim_divergence_C1 :
    (scoreRow M0 featureCols r0).ODScore = 2/3 ∧
    (simulate_business r0 M0 featureCols).ODScore = 6667/10000 ∧
    (simulate_business r0 M0 featureCols).ODScore ≠ (scoreRow M0 featureCols r0).ODScore ∧
    (simulate_business r0 M0 featureCols).Interest_Eligible
      = interest_reduction (scoreRow M0 featureCols r0).PD (rowGetD r0 "OD_Utilization" 0) := by
  have hb : (scoreRow M0 featureCols r0).ODScore = 2/3 := by
    simp only [scoreRow, simX_r0, scaled_M0_r0, pca_M0_r0, kmeans_M0, M0_ann_const]
    rw [show rowGetD r0 "CashRatio" 0 = 1 from rfl]
    norm_num
  have hs : (simulate_business r0 M0 featureCols).ODScore = 6667/10000 := by
    simp only [simulate_business, simX_r0, scaled_M0_r0, pca_M0_r0, kmeans_M0, M0_ann_const]
    rw [show rowGetD r0 "CashRatio" 1 = 1 from rfl,
      show ((1 : ℚ) - 1/3) * 1 = 2/3 by norm_num, pyRound_two_thirds_4]
  refine ⟨hb, hs, ?_, ?_⟩
  · rw [hb, hs]
    norm_num
  · simp only [simulate_business, scoreRow, simX_r0, scaled_M0_r0, pca_M0_r0,
      kmeans_M0, M0_ann_const, interest_reduction]

/-- C1 amended: with the same loaded artifacts and the same record, the
two paths agree exactly on the eligibility flag, the cluster and the
raw PD; the simulator's `ODScore` is the batch `ODScore` rounded (half
to even) to 4 decimal places and its `PD` is the batch `PD` rounded to
6, because `simulate_business` applies `round(·, 4)` / `round(·, 6)`
while `compute_risk_scores` does not round. -/
theorem batch_sim_equiv_amended_C1 (r : Row) (m : Models) (cols : List String)
    (c u : ℚ) (hc : List.lookup "CashRatio" r = some c)
    (hu : List.lookup "OD_Utilization" r = some u) :
    (simulate_business r m cols).Interest_Eligible
      = interest_reduction (scoreRow m cols r).PD u ∧
    (scoreRow m cols r).ODScore = (1 - (scoreRow m cols r).PD) * c ∧
    (simulate_business r m cols).ODScore
      = pyRound ((1 - (scoreRow m cols r).PD) * c) 4 ∧
    (simulate_business r m cols).PD = pyRound ((scoreRow m cols r).PD) 6 ∧
    (simulate_business r m cols).Cluster = (scoreRow m cols r).Cluster := by
  simp [simulate_business, scoreRow, interest_reduction, rowGetD, hc, hu]

/-- Witness for the amended C1 at the concrete record and artifacts. -/
theorem batch_sim_equiv_amended_C1_witness :
    (simulate_business r0 M0 featureCols).Interest_Eligible
      = interest_reduction (scoreRow M0 featureCols r0).PD (3/4) ∧
    (scoreRow M0 featureCols r0).ODScore = (1 - (scoreRow M0 featureCols r0).PD) * 1 ∧
    (simulate_business r0 M0 featureCols).ODScore
      = pyRound ((1 - (scoreRow M0 featureCols r0).PD) * 1) 4 ∧
    (simulate_business r0 M0 featureCols).PD
      = pyRound ((scoreRow M0 featureCols r0).PD) 6 ∧
    (simulate_business r0 M0 featureCols).Cluster = (scoreRow M0 featureCols r0).Cluster :=
  batch_sim_equiv_amended_C1 r0 M0 featureCols 1 (3/4) rfl rfl

/-! ## C6: feature-order validation at apply time -/

/-- C6 counterexample: applying fitted scaler params to the permuted
vector does not raise (there is no `FeatureSchemaMismatchError` anywhere
in the code); it silently returns a well-formed but different score
vector. -/
theorem scaler_schema_counterexample_C6 :
    ([(2 : ℚ), 1].Perm [1, 2]) ∧
    scalerTransformChecked ⟨[0, 0], [1, 2]⟩ [2, 1] = some [2, 1/2] ∧
    scalerTransformChecked ⟨[0, 0], [1, 2]⟩ [1, 2] = some [1, 1] ∧
    ([2, (1 : ℚ)/2] ≠ [1, 1]) := by
  refine ⟨List.Perm.swap 1 2 [], ?_, ?_, ?_⟩
  · norm_num [scalerTransformChecked, scalerTransform]
  · norm_num [scalerTransformChecked, scalerTransform]
  · intro h
    have h2 : (2 : ℚ) = 1 := by injection h
    norm_num at h2

/-- C6 amended: the apply step performs no feature-name validation:
applying fitted params to any permutation of a vector of the fitted
length silently returns the elementwise `(x - mean) / scale` of the
permuted vector. -/
theorem scaler_no_schema_check_C6 (s : Scaler) (x y : List ℚ)
    (hperm : x.Perm y) (hx : x.length = s.mean.length)
    (hms : s.mean.length = s.scale.length) :
    scalerTransformChecked s y = some (scalerTransform s y) := by
  have hy : y.length = s.mean.length := hperm.length_eq.symm.trans hx
  unfold scalerTransformChecked
  rw [if_pos ⟨hy, hms⟩]

/-- Witness for the amended C6 at concrete params and a permuted vector. -/
theorem scaler_no_schema_check_C6_witness :
    scalerTransformChecked ⟨[0, 0], [1, 2]⟩ [2, 1]
      = some (scalerTransform ⟨[0, 0], [1, 2]⟩ [2, 1]) :=
  scaler_no_schema_check_C6 ⟨[0, 0], [1, 2]⟩ [1, 2] [2, 1]
    (List.Perm.swap 2 1 []) rfl rfl

/-! ## C7: missing raw fields -/

/-- C7 counterexample: with every one of the 15 raw fields (indeed all
18 features) missing, the simulator does not fail: `params.get(f, 0.0)`
silently substitutes 0.0 for each feature (and 1.0 for `CashRatio`),
and a fully formed result is returned.  No `MissingFieldError` exists
in the code. -/
theorem missing_fields_counterexample_C7 :
    List.lookup "Monthly_Revenue" ([] : List (String × ℚ)) = none ∧
    (simulate_business [] M0 featureCols).PD = 333333/1000000 ∧
    (simulate_business [] M0 featureCols).ODScore = 6667/10000 ∧
    (simulate_business [] M0 featureCols).Cluster_Name = "Stable" ∧
    (simulate_business [] M0 featureCols).Interest_Eligible = false := by
  have hx : simX ([] : Row) featureCols = List.replicate 18 0 := rfl
  refine ⟨rfl, ?_, ?_, ?_, ?_⟩
  · simp only [simulate_business, hx, scaled_M0_zero, pca_M0_zero, kmeans_M0, M0_ann_const]
    exact pyRound_third_6
  · simp only [simulate_business, hx, scaled_M0_zero, pca_M0_zero, kmeans_M0, M0_ann_const]
    rw [show rowGetD ([] : Row) "CashRatio" 1 = 1 from rfl,
      show ((1 : ℚ) - 1/3) * 1 = 2/3 by norm_num, pyRound_two_thirds_4]
  · rfl
  · simp only [simulate_business, hx, scaled_M0_zero, pca_M0_zero, kmeans_M0, M0_ann_const]
    rw [show rowGetD ([] : Row) "OD_Utilization" 0 = 0 from rfl,
      decide_eq_false (by norm_num [OD_UTIL_THRESHOLD] : ¬ ((0 : ℚ) > OD_UTIL_THRESHOLD)),
      Bool.and_false]

/-- C7 amended: `simulate_business` is total on its parameter dict: a
record missing any or all required raw fields is scored as if each
missing feature were 0.0 (`CashRatio` 1.0, `OD_Utilization` 0.0) — the
feature vector of an all-missing record is the zero vector and its
result is identical to scoring the empty dict.  Nothing fails and no
`MissingFieldError` is raised; the only defined substitutions of the
engineering step itself remain the two division guards. -/
theorem simulate_missing_defaults_C7 (params : Row) (m : Models) (cols : List String)
    (hcols : ∀ f ∈ cols, List.lookup f params = none)
    (hcr : List.lookup "CashRatio" params = none)
    (hu : List.lookup "OD_Utilization" params = none) :
    simX params cols = List.replicate cols.length 0 ∧
    simulate_business params m cols = simulate_business [] m cols := by
  have hx : simX params cols = simX ([] : Row) cols := by
    unfold simX
    refine List.map_congr_left (fun f hf => ?_)
    rw [rowGetD, hcols f hf]
    rfl
  refine ⟨hx.trans (simX_nil cols), ?_⟩
  simp only [simulate_business, rowGetD, hx, hcr, hu, List.lookup_nil]

/-- Witness for the amended C7: a dict holding only an unrelated key. -/
theorem simulate_missing_defaults_C7_witness :
    simX [("Foo", (5 : ℚ))] featureCols = List.replicate featureCols.length 0 ∧
    simulate_business [("Foo", (5 : ℚ))] M0 featureCols
      = simulate_business [] M0 featureCols :=
  simulate_missing_defaults_C7 [("Foo", 5)] M0 featureCols (by decide) rfl rfl

/-! ## C8: idempotence of scoring -/

/-- C8: scoring is deterministic and leaves the artifact state
unchanged: running the simulator twice against the same loaded artifact
set (threading the state through) gives identical results, and scoring
the same row twice in one batch gives two identical scored rows. -/
theorem scoring_idempotent_C8 :
    (∀ (m : Models) (p : Row) (cols : List String),
        (run_score m p cols).2 = m ∧
        (run_score (run_score m p cols).2 p cols).1 = (run_score m p cols).1) ∧
    (∀ (m : Models) (cols : List String) (r : Row),
        compute_risk_scores [r, r] m cols
          = (compute_risk_scores [r] m cols).map (fun l => l ++ l)) := by
  refine ⟨fun m p cols => ⟨rfl, rfl⟩, fun m cols r => ?_⟩
  unfold compute_risk_scores
  by_cases h : rowOk cols r = true
  · simp [List.all_cons, h]
  · simp [List.all_cons, h]

/-! ## C9: sector ranking -/

theorem addRanks_map_rank :
    ∀ (l : List (String × ℚ)) (n : ℕ),
      (addRanks l n).map (fun e => e.2.2) = List.range' n l.length
  | [], _ => rfl
  | e :: t, n => by
    rw [show addRanks (e :: t) n = (e.1, e.2, n) :: addRanks t (n + 1) from rfl,
      List.map_cons, addRanks_map_rank t (n + 1), List.length_cons]
    rfl

theorem addRanks_length (l : List (String × ℚ)) (n : ℕ) :
    (addRanks l n).length = l.length := by
  induction l generalizing n with
  | nil => rfl
  | cons e t ih =>
    rw [show addRanks (e :: t) n = (e.1, e.2, n) :: addRanks t (n + 1) from rfl,
      List.length_cons, List.length_cons, ih]

theorem addRanks_rank_lb (l : List (String × ℚ)) (n : ℕ) :
    ∀ e ∈ addRanks l n, n ≤ e.2.2 := by
  induction l generalizing n with
  | nil => intro e he; cases he
  | cons x t ih =>
    intro e he
    rcases List.mem_cons.mp he with he | he
    · subst he; exact le_refl n
    · exact le_trans (Nat.le_succ n) (ih (n + 1) e he)

theorem addRanks_mem_pair (l : List (String × ℚ)) (n : ℕ) :
    ∀ e ∈ addRanks l n, (e.1, e.2.1) ∈ l := by
  induction l generalizing n with
  | nil => intro e he; cases he
  | cons x t ih =>
    intro e he
    rcases List.mem_cons.mp he with he | he
    · subst he; exact List.mem_cons_self _ _
    · exact List.mem_cons_of_mem _ (ih (n + 1) e he)

theorem addRanks_pairwise (l : List (String × ℚ)) (n : ℕ)
    (h : l.Pairwise (fun a b => a.2 ≤ b.2)) :
    (addRanks l n).Pairwise (fun a b => a.2.1 ≤ b.2.1) := by
  induction l generalizing n with
  | nil => exact List.Pairwise.nil
  | cons x t ih =>
    rcases List.pairwise_cons.mp h with ⟨hx, ht⟩
    refine List.Pairwise.cons ?_ (ih (n + 1) ht)
    intro e he
    exact hx _ (addRanks_mem_pair t (n + 1) e he)

theorem sortByAvgPD_sorted (l : List (String × ℚ)) :
    (sortByAvgPD l).Pairwise (fun a b => a.2 ≤ b.2) := by
  unfold sortByAvgPD
  haveI : IsTotal (String × ℚ) (fun a b => a.2 ≤ b.2) := ⟨fun a b => le_total a.2 b.2⟩
  haveI : IsTrans (String × ℚ) (fun a b => a.2 ≤ b.2) :=
    ⟨fun a b c h1 h2 => le_trans h1 h2⟩
  exact List.sorted_insertionSort _ _

/-- C9: the sector report ranks categories by ascending mean PD: the
ranked report is sorted by mean PD, carries ranks 1..n in order, the
rank-1 entry has the minimal mean PD, and on the spec's three-category
example (mean PDs 0.05, 0.20, 0.12) the ranks are 1, 3, 2. -/
theorem sector_ranking_C9 :
    (∀ df : List (String × ℚ),
        (analyze_sectors df).Pairwise (fun a b => a.2.1 ≤ b.2.1)) ∧
    (∀ df : List (String × ℚ),
        (analyze_sectors df).map (fun e => e.2.2)
          = List.range' 1 (analyze_sectors df).length) ∧
    (∀ (df : List (String × ℚ)) (e1 e2 : String × ℚ × ℕ),
        e1 ∈ analyze_sectors df → e2 ∈ analyze_sectors df → e1.2.2 = 1 →
          e1.2.1 ≤ e2.2.1) ∧
    analyze_sectors [("Retail", 5/100), ("Transport", 20/100), ("Services", 12/100)]
      = [("Retail", 1/20, 1), ("Services", 3/25, 2), ("Transport", 1/5, 3)] := by
  refine ⟨?_, ?_, ?_, ?_⟩
  · intro df
    exact addRanks_pairwise _ 1 (sortByAvgPD_sorted (sectorAgg df))
  · intro df
    rw [analyze_sectors, addRanks_map_rank, addRanks_length]
  · intro df e1 e2 h1 h2 hr
    rw [analyze_sectors] at h1 h2
    revert h1 h2
    have hsorted := sortByAvgPD_sorted (sectorAgg df)
    generalize sortByAvgPD (sectorAgg df) = l at hsorted ⊢
    cases l with
    | nil => intro h1; cases h1
    | cons x t =>
      intro h1 h2
      rcases List.mem_cons.mp h1 with he1 | he1
      · subst he1
        rcases List.mem_cons.mp h2 with he2 | he2
        · subst he2; exact le_refl _
        · exact (List.pairwise_cons.mp hsorted).1 _ (addRanks_mem_pair t 2 e2 he2)
      · have hlb := addRanks_rank_lb t 2 e1 he1
        rw [hr] at hlb
        omega
  · have hk : sectorKeys
        [("Retail", 5/100), ("Transport", 20/100), ("Services", 12/100)]
        = ["Retail", "Services", "Transport"] := by
      rw [sectorKeys]
      rw [show (([("Retail", (5 : ℚ)/100), ("Transport", 20/100),
        ("Services", 12/100)]).map Prod.fst) = ["Retail", "Transport", "Services"] from rfl]
      rw [show (["Retail", "Transport", "Services"].dedup)
        = ["Retail", "Transport", "Services"] by decide]
      simp [List.insertionSort, List.orderedInsert]
      decide
    have hf1 : sectorPDs
        [("Retail", 5/100), ("Transport", 20/100), ("Services", 12/100)] "Retail"
        = [5/100] := rfl
    have hf2 : sectorPDs
        [("Retail", 5/100), ("Transport", 20/100), ("Services", 12/100)] "Services"
        = [12/100] := rfl
    have hf3 : sectorPDs
        [("Retail", 5/100), ("Transport", 20/100), ("Services", 12/100)] "Transport"
        = [20/100] := rfl
    have ha : sectorAgg [("Retail", 5/100), ("Transport", 20/100), ("Services", 12/100)]
        = [("Retail", 1/20), ("Services", 3/25), ("Transport", 1/5)] := by
      rw [sectorAgg, hk, List.map_cons, List.map_cons, List.map_cons, List.map_nil,
        hf1, hf2, hf3]
      norm_num [meanQ]
    rw [analyze_sectors, ha]
    have hs : sortByAvgPD [("Retail", 1/20), ("Services", 3/25), ("Transport", 1/5)]
        = [("Retail", 1/20), ("Services", 3/25), ("Transport", 1/5)] := by
      norm_num [sortByAvgPD, List.insertionSort, List.orderedInsert]
    rw [hs]
    rfl

/-- Witness for C9: the rank-1 category of the concrete report has the
smallest mean PD. -/
theorem sector_ranking_C9_witness : ((1 : ℚ)/20 ≤ 1/5) := by
  have h := sector_ranking_C9.2.2.2
  exact sector_ranking_C9.2.2.1
    [("Retail", 5/100), ("Transport", 20/100), ("Services", 12/100)]
    ("Retail", 1/20, 1) ("Transport", 1/5, 3)
    (by rw [h]; simp) (by rw [h]; simp) rfl

/-! ## C10: scoring mutates no shared state -/

/-- C10: apply-only batch scoring leaves the caller's frame and the
loaded artifacts unchanged (the source copies the frame before adding
columns), and the returned frame is the input rows each extended with
the added `PD`, `Cluster`, `Cluster_Name`, `ODScore` columns: dropping
the added columns recovers the caller's frame exactly. -/
theorem frame_effects_C10 :
    (∀ (st : SysState) (cols : List String) (out : List ScoredRow) (st2 : SysState),
        compute_risk_scores_run st cols = some (out, st2) →
          st2 = st ∧ out.map ScoredRow.base = st.df) ∧
    (∀ (df : List Row) (m : Models) (cols : List String) (out : List ScoredRow),
        compute_risk_scores df m cols = some out →
          out.map ScoredRow.base = df) := by
  have hbase : ∀ (df : List Row) (m : Models) (cols : List String) (out : List ScoredRow),
      compute_risk_scores df m cols = some out → out.map ScoredRow.base = df := by
    intro df m cols out h
    unfold compute_risk_scores at h
    by_cases hc : df.all (rowOk cols) = true
    · rw [if_pos hc] at h
      rw [← Option.some.inj h, List.map_map]
      have hid : ScoredRow.base ∘ scoreRow m cols = id := funext fun r => rfl
      rw [hid, List.map_id]
    · rw [if_neg hc] at h
      cases h
  refine ⟨?_, hbase⟩
  intro st cols out st2 h
  unfold compute_risk_scores_run at h
  cases hc : compute_risk_scores st.df st.models cols with
  | none => rw [hc] at h; cases h
  | some o =>
    rw [hc] at h
    simp only [Option.map_some'] at h
    have h2 := Option.some.inj h
    have ho : o = out := congrArg Prod.fst h2
    have hst : st = st2 := congrArg Prod.snd h2
    subst ho
    exact ⟨hst.symm, hbase st.df st.models cols o hc⟩

/-- Witness for C10 at the concrete one-row frame and artifacts. -/
theorem frame_effects_C10_witness :
    ((⟨[r0], M0⟩ : SysState) = ⟨[r0], M0⟩ ∧
      ([r0].map (scoreRow M0 featureCols)).map ScoredRow.base = [r0]) :=
  frame_effects_C10.1 ⟨[r0], M0⟩ featureCols ([r0].map (scoreRow M0 featureCols))
    ⟨[r0], M0⟩ rfl

end ODSys
